import Mathlib

/-!
Verification development for the Platfrix CI bring-up scripts.

The repository drives a Jenkins control plane over its administrative HTTP
API (`scripts/setup-jenkins.mjs`, `scripts/clear-jenkins-jobs.mjs`), manages
an ngrok tunnel (`scripts/setup-ngrok.mjs`) and registers a GitHub webhook
(the `setup-webhook` module concatenated into `setup-ngrok.mjs`).

Each script is shallowly embedded below: the responses of the external
world (Jenkins, the ngrok local API, the `gh` CLI) are passed in as explicit
environment values (`Option String` for a request that may fail, streams
`Nat → Option _` for polling loops), and each operation returns its result
together with the observable effects (number of creation POSTs issued,
bodies posted, session contexts used).
-/

namespace Platfrix

/-- Test whether the first list is a prefix of the second. -/
def listPrefix : List Char → List Char → Bool
  | [], _ => true
  | _ :: _, [] => false
  | c :: cs, d :: ds => c == d && listPrefix cs ds

/-- Test whether `pat` occurs as a contiguous sublist of `s`. -/
def hasSub (pat : List Char) : List Char → Bool
  | [] => listPrefix pat []
  | c :: rest => listPrefix pat (c :: rest) || hasSub pat rest

/-- Number of positions of `s` at which `pat` occurs (for the XML element
patterns counted below, which cannot overlap themselves, this is the
number of occurrences of the element). -/
def countSub (pat : List Char) : List Char → Nat
  | [] => if listPrefix pat [] then 1 else 0
  | c :: rest => (if listPrefix pat (c :: rest) then 1 else 0) + countSub pat rest

/-- Number of occurrences of the non-empty pattern `pat` inside `s`. -/
def countOccur (s pat : String) : Nat :=
  countSub pat.data s.data

/-- Substring test in the sense of JavaScript `String.prototype.includes`:
`pat` occurs somewhere inside `s`. -/
def includesSub (s pat : String) : Bool :=
  hasSub pat.data s.data

/-- Test in the sense of JavaScript `String.prototype.startsWith`: `pat`
is a prefix of `s`. -/
def strStartsWith (s pat : String) : Bool :=
  listPrefix pat.data s.data

/-- JavaScript truthiness-guarded substring test, embedding the idiom
`result && result.includes(pat)` where `result` is `null` (modelled `none`)
or a string: `null` and the empty string are falsy. -/
def jsIncludes (r : Option String) (pat : String) : Bool :=
  match r with
  | none => false
  | some s => (!(s == "")) && includesSub s pat

namespace SetupJenkins

/-- CSRF crumb as parsed by `getCrumb` in `scripts/setup-jenkins.mjs`
(lines 62-75): the `crumbRequestField` and `crumb` fields of the JSON
answer of `/crumbIssuer/api/json`. -/
structure Crumb where
  field : String
  value : String
deriving DecidableEq

/-- Result of `addCredential` (`scripts/setup-jenkins.mjs` lines 92-131):
the returned boolean together with the list of XML bodies POSTed to the
credential-creation endpoint during the call. -/
structure CredResult where
  ok : Bool
  posted : List String
deriving DecidableEq

/-- XML document built by `addCredential` (`scripts/setup-jenkins.mjs`
lines 101-109), after the template literal is trimmed. -/
def credentialXml (credId desc user pass : String) : String :=
  "<com.cloudbees.plugins.credentials.impl.UsernamePasswordCredentialsImpl>\n" ++
  "  <scope>GLOBAL</scope>\n" ++
  "  <id>" ++ credId ++ "</id>\n" ++
  "  <description>" ++ desc ++ "</description>\n" ++
  "  <username>" ++ user ++ "</username>\n" ++
  "  <password>" ++ pass ++ "</password>\n" ++
  "</com.cloudbees.plugins.credentials.impl.UsernamePasswordCredentialsImpl>"

/-- Embedding of `addCredential` (`scripts/setup-jenkins.mjs` lines 92-131).
`crumbResp` is the outcome of the `getCrumb()` call (`none` when the crumb
request or its JSON parse failed), `postOk` is whether the creation `curl`
process exits successfully. When the crumb is missing the function returns
`false` before any POST; otherwise it POSTs exactly one body, the
credential XML, and returns the POST outcome. -/
def addCredential (crumbResp : Option Crumb) (postOk : Bool)
    (credId user pass desc : String) : CredResult :=
  match crumbResp with
  | none => { ok := false, posted := [] }
  | some _ => { ok := postOk, posted := [credentialXml credId desc user pass] }

/-- Pipeline-definition XML document built by `createPipelineJob`
(`scripts/setup-jenkins.mjs` lines 152-188). -/
def jobConfigXml (jobName githubRepoUrl jenkinsfilePath : String) : String :=
  "<?xml version=\x271.1\x27 encoding=\x27UTF-8\x27?>\n" ++
  "<flow-definition plugin=\"workflow-job\">\n" ++
  "  <description>Pipeline for " ++ jobName ++ "</description>\n" ++
  "  <keepDependencies>false</keepDependencies>\n" ++
  "  <properties>\n" ++
  "    <com.coravy.hudson.plugins.github.GithubProjectProperty plugin=\"github\">\n" ++
  "      <projectUrl>" ++ githubRepoUrl ++ "/</projectUrl>\n" ++
  "      <displayName></displayName>\n" ++
  "    </com.coravy.hudson.plugins.github.GithubProjectProperty>\n" ++
  "  </properties>\n" ++
  "  <definition class=\"org.jenkinsci.plugins.workflow.cps.CpsScmFlowDefinition\" plugin=\"workflow-cps\">\n" ++
  "    <scm class=\"hudson.plugins.git.GitSCM\" plugin=\"git\">\n" ++
  "      <configVersion>2</configVersion>\n" ++
  "      <userRemoteConfigs>\n" ++
  "        <hudson.plugins.git.UserRemoteConfig>\n" ++
  "          <url>" ++ githubRepoUrl ++ ".git</url>\n" ++
  "        </hudson.plugins.git.UserRemoteConfig>\n" ++
  "      </userRemoteConfigs>\n" ++
  "      <branches>\n" ++
  "        <hudson.plugins.git.BranchSpec>\n" ++
  "          <name>*/main</name>\n" ++
  "        </hudson.plugins.git.BranchSpec>\n" ++
  "      </branches>\n" ++
  "      <doGenerateSubmoduleConfigurations>false</doGenerateSubmoduleConfigurations>\n" ++
  "      <submoduleCfg class=\"empty-list\"/>\n" ++
  "      <extensions/>\n" ++
  "    </scm>\n" ++
  "    <scriptPath>" ++ jenkinsfilePath ++ "</scriptPath>\n" ++
  "    <lightweight>true</lightweight>\n" ++
  "  </definition>\n" ++
  "  <triggers>\n" ++
  "    <com.cloudbees.jenkins.GitHubPushTrigger plugin=\"github\">\n" ++
  "      <spec></spec>\n" ++
  "    </com.cloudbees.jenkins.GitHubPushTrigger>\n" ++
  "  </triggers>\n" ++
  "  <disabled>false</disabled>\n" ++
  "</flow-definition>"

/-- Embedding of `createPipelineJob` (`scripts/setup-jenkins.mjs` lines
136-210). `existsResp` is the body answered by the existence GET on
`/job/<name>/api/json` (`none` when `curl` failed), `crumbResp` the outcome
of `getCrumb()`, `postOk` whether the creation `curl` process exits
successfully. Returns the boolean result and the list of XML bodies POSTed
to the `/createItem` creation endpoint: when the existence GET answers a
truthy body containing `"fullName"` the function short-circuits to success
with no POST, when the crumb is missing it fails with no POST, and
otherwise it issues exactly one creation POST. -/
def createPipelineJob (existsResp : Option String) (crumbResp : Option Crumb)
    (postOk : Bool) (jobName githubRepoUrl jenkinsfilePath : String) :
    Bool × List String :=
  if jsIncludes existsResp "fullName" then (true, [])
  else
    match crumbResp with
    | none => (false, [])
    | some _ => (postOk, [jobConfigXml jobName githubRepoUrl jenkinsfilePath])

/-- Embedding of `checkJenkinsApi` (`scripts/setup-jenkins.mjs` lines
80-87): the GET on `/api/json` answers `resp`, and the check succeeds when
the body is truthy and contains `"mode"`. -/
def checkJenkinsApi (resp : Option String) : Bool :=
  jsIncludes resp "mode"

/-- Readiness-polling loop of `setupJenkins` (`scripts/setup-jenkins.mjs`
lines 221-228), generalised over the starting index: `resp i` is the body
answered by the i-th liveness GET. Returns whether the loop reported ready
together with the number of liveness GET calls it issued. -/
def waitFrom (resp : Nat → Option String) (i : Nat) : Nat → Bool × Nat
  | 0 => (false, 0)
  | fuel + 1 =>
    if checkJenkinsApi (resp i) then (true, 1)
    else
      let r := waitFrom resp (i + 1) fuel
      (r.1, r.2 + 1)

/-- Readiness polling as performed by `setupJenkins`: at most 30 attempts
starting from the first response. -/
def waitUntilReady (resp : Nat → Option String) : Bool × Nat :=
  waitFrom resp 0 30

end SetupJenkins

namespace SessionModel

/-- Cookie context in which one HTTP request of the Jenkins client runs.
`curlProc n` is the n-th standalone `curl` (or `Invoke-WebRequest` without
a session) process spawned by the operation: `curl` is invoked without any
`-b`, `-c` or `--cookie-jar` option anywhere in the repository, so each
such process starts from, and dies with, its own empty cookie store.
`psSession n` is a PowerShell `WebRequestSession` object, passed with
`-WebSession` to every request that shares it. -/
inductive Ctx where
  | curlProc : Nat → Ctx
  | psSession : Nat → Ctx
deriving DecidableEq

/-- Cookie-context pair of one mutating operation: the context of the
crumb-fetch GET and the context of the mutating POST that carries the
crumb header. -/
structure MutOp where
  crumbCtx : Ctx
  postCtx : Ctx
deriving DecidableEq

/-- The crumb and the POST of an operation run in one cookie-bearing
session context exactly when their contexts coincide. -/
def sharesSession (op : MutOp) : Prop :=
  op.crumbCtx = op.postCtx

instance (op : MutOp) : Decidable (sharesSession op) :=
  inferInstanceAs (Decidable (op.crumbCtx = op.postCtx))

/-- Session contexts of `addCredential` (`scripts/setup-jenkins.mjs`):
`getCrumb` (lines 65-69) runs one `curl` process, the creation POST
(lines 116-124) runs a second `curl` process; neither passes any cookie
option, so the two requests run in distinct cookie contexts. -/
def addCredentialOp : MutOp :=
  { crumbCtx := Ctx.curlProc 0, postCtx := Ctx.curlProc 1 }

/-- Session contexts of `createPipelineJob` (`scripts/setup-jenkins.mjs`):
`getCrumb` runs one `curl` process (lines 146, 65-69) and the
`/createItem` POST (lines 195-203) a second one, again with no cookie
option. -/
def createPipelineJobOp : MutOp :=
  { crumbCtx := Ctx.curlProc 0, postCtx := Ctx.curlProc 1 }

/-- Session contexts of `httpPost` in `scripts/clear-jenkins-jobs.mjs`
(lines 64-124, win32 path, used for job deletion): the generated
PowerShell script creates one `WebRequestSession` (line 78) and passes it
with `-WebSession $session` both to the crumb GET (line 82) and to the
POST (line 104), so both requests share one cookie context. -/
def httpPostOp : MutOp :=
  { crumbCtx := Ctx.psSession 0, postCtx := Ctx.psSession 0 }

end SessionModel

namespace SetupNgrok

/-- One entry of the ngrok local status API answer
`GET http://127.0.0.1:4040/api/tunnels`, keeping the field the scripts
read. -/
structure Tunnel where
  public_url : String
deriving DecidableEq

/-- URL selection shared by the two status reads in `startNgrokTunnel`
(`scripts/setup-ngrok.mjs` lines 320-321 and 359-360): the `public_url`
of the first entry whose `public_url` starts with `https://` when one
exists, otherwise the `public_url` of the first entry. -/
def pickUrl (ts : List Tunnel) : Option String :=
  match ts.find? (fun t => strStartsWith t.public_url "https://") with
  | some t => some t.public_url
  | none => ts.head?.map (fun t => t.public_url)

/-- Environment of one `startNgrokTunnel` call: `initial` is the parsed
answer of the status query made before launching anything (`none` when the
request or its JSON parse threw), `poll i` the parsed answer of the i-th
polling query made after the launch. -/
structure NgrokEnv where
  initial : Option (List Tunnel)
  poll : Nat → Option (List Tunnel)

/-- Polling loop of `startNgrokTunnel` (`scripts/setup-ngrok.mjs` lines
350-367), generalised over the starting index: each iteration queries the
status endpoint and returns the selected URL on the first answer listing
at least one tunnel; a throwing query (`none`) is skipped by the `catch`. -/
def pollLoop (poll : Nat → Option (List Tunnel)) (i : Nat) : Nat → Option String
  | 0 => none
  | fuel + 1 =>
    match poll i with
    | some ts => if ts.length > 0 then pickUrl ts else pollLoop poll (i + 1) fuel
    | none => pollLoop poll (i + 1) fuel

/-- Embedding of `startNgrokTunnel` (`scripts/setup-ngrok.mjs` lines
309-371). Returns the `public_url` it reports (`none` for the `null`
failure return) together with the number of ngrok provider processes it
spawns: when the initial status query lists at least one tunnel it returns
that URL at once and spawns nothing; otherwise it spawns one detached
process (lines 331-345) and polls up to 30 times at a fixed 1000 ms
interval. -/
def startNgrokTunnel (env : NgrokEnv) : Option String × Nat :=
  match env.initial with
  | some ts =>
    if ts.length > 0 then (pickUrl ts, 0)
    else (pollLoop env.poll 0 30, 1)
  | none => (pollLoop env.poll 0 30, 1)

/-- A status answer that lists at least one tunnel. -/
def listsTunnels (r : Option (List Tunnel)) : Prop :=
  ∃ ts, r = some ts ∧ ts ≠ []

instance (r : Option (List Tunnel)) : Decidable (listsTunnels r) := by
  unfold listsTunnels
  match r with
  | none => exact isFalse (by simp)
  | some ts => exact decidable_of_iff (ts ≠ []) (by simp)

end SetupNgrok

namespace SetupWebhook

/-- Environment of one `setupWebhook` call: whether the primary
`gh api … --input - <<< …` creation call exits successfully, and whether
the alternative temp-file `gh api … --input <file>` creation call would. -/
structure WebhookEnv where
  primaryOk : Bool
  altOk : Bool
deriving DecidableEq

/-- Result of `setupWebhook` as observed by its caller, together with the
number of webhook-creation calls issued against the hosting platform. -/
structure WebhookResult where
  skipped : Bool
  created : Bool
  manual : Bool
  calls : Nat
deriving DecidableEq

/-- Embedding of `setupWebhook` (the `setup-webhook` module concatenated
into `scripts/setup-ngrok.mjs`, lines 520-580). `jenkinsUrl` is the target
base URL (`none` for the JavaScript `undefined`); a falsy URL short-circuits
to a skipped result. Otherwise the primary creation call is issued; if it
throws, one alternative creation call with the same payload is issued; only
when both throw does the function return the manual-fallback result. Every
failure is caught, so the function always returns a result. -/
def setupWebhook (jenkinsUrl : Option String) (env : WebhookEnv) : WebhookResult :=
  match jenkinsUrl with
  | none => { skipped := true, created := false, manual := false, calls := 0 }
  | some u =>
    if u == "" then { skipped := true, created := false, manual := false, calls := 0 }
    else if env.primaryOk then
      { skipped := false, created := true, manual := false, calls := 1 }
    else if env.altOk then
      { skipped := false, created := true, manual := false, calls := 2 }
    else
      { skipped := false, created := false, manual := true, calls := 2 }

end SetupWebhook

namespace NgrokConfig

/-- Parsed content of the persisted configuration document
`~/.platfrix/config.json`, as a list of key-value pairs; `loadConfig`
(`scripts/setup-ngrok.mjs` lines 36-43) yields the empty object when the
file is missing or unparseable. -/
abbrev Config := List (String × String)

/-- Value of a key in the configuration document: the value of its first
binding. -/
def lookupKey (cfg : Config) (k : String) : Option String :=
  (cfg.find? (fun p => p.1 == k)).map (fun p => p.2)

/-- JavaScript property assignment `config[k] = v` on the parsed document:
replace the value of an existing key, otherwise append the new binding. -/
def setKey (cfg : Config) (k v : String) : Config :=
  if (cfg.find? (fun p => p.1 == k)).isSome then
    cfg.map (fun p => if p.1 == k then (k, v) else p)
  else cfg ++ [(k, v)]

/-- Embedding of `saveNgrokToken` (`scripts/setup-ngrok.mjs` lines 56-60):
load the document, set its `ngrokAuthToken` property, write it back. -/
def saveNgrokToken (cfg : Config) (token : String) : Config :=
  setKey cfg "ngrokAuthToken" token

/-- Embedding of `getSavedNgrokToken` (`scripts/setup-ngrok.mjs` lines
52-54): `loadConfig().ngrokAuthToken || ""` — a missing key yields `""`,
and a stored empty string is falsy and also yields `""`. -/
def getSavedNgrokToken (cfg : Config) : String :=
  match lookupKey cfg "ngrokAuthToken" with
  | some v => v
  | none => ""

end NgrokConfig

namespace SetupJenkins

/-- When every one of the next `fuel` liveness answers fails the check, the
polling loop exhausts its fuel, reports not ready and has issued exactly
`fuel` GET calls. -/
theorem waitFrom_all_fail (resp : Nat → Option String) :
    ∀ fuel i, (∀ j, j < fuel → checkJenkinsApi (resp (i + j)) = false) →
      waitFrom resp i fuel = (false, fuel)
  | 0, _, _ => rfl
  | fuel + 1, i, h => by
    have h0 : checkJenkinsApi (resp i) = false := by
      simpa using h 0 (Nat.succ_pos fuel)
    have ih := waitFrom_all_fail resp fuel (i + 1) (fun j hj => by
      have e : i + 1 + j = i + (j + 1) := by omega
      rw [e]
      exact h (j + 1) (Nat.succ_lt_succ hj))
    simp [waitFrom, h0, ih]

/-- When the first `k` liveness answers fail the check and the next one
passes it, the polling loop reports ready after exactly `k + 1` GET
calls. -/
theorem waitFrom_first_success (resp : Nat → Option String) :
    ∀ fuel i k, k < fuel →
      (∀ j, j < k → checkJenkinsApi (resp (i + j)) = false) →
      checkJenkinsApi (resp (i + k)) = true →
      waitFrom resp i fuel = (true, k + 1)
  | 0, _, k, hk, _, _ => absurd hk (Nat.not_lt_zero k)
  | fuel + 1, i, 0, _, _, hs => by
    have hs0 : checkJenkinsApi (resp i) = true := by simpa using hs
    simp [waitFrom, hs0]
  | fuel + 1, i, k + 1, hk, hf, hs => by
    have h0 : checkJenkinsApi (resp i) = false := by
      simpa using hf 0 (Nat.succ_pos k)
    have ih := waitFrom_first_success resp fuel (i + 1) k (Nat.lt_of_succ_lt_succ hk)
      (fun j hj => by
        have e : i + 1 + j = i + (j + 1) := by omega
        rw [e]
        exact hf (j + 1) (Nat.succ_lt_succ hj))
      (by
        have e : i + 1 + k = i + (k + 1) := by omega
        rw [e]
        exact hs)
    simp [waitFrom, h0, ih]

end SetupJenkins

namespace SetupNgrok

/-- When none of the next `fuel` status answers lists a tunnel, the polling
loop of `startNgrokTunnel` exhausts its fuel and yields the `null` failure
value. -/
theorem pollLoop_all_fail (poll : Nat → Option (List Tunnel)) :
    ∀ fuel i, (∀ j, j < fuel → ¬ listsTunnels (poll (i + j))) →
      pollLoop poll i fuel = none
  | 0, _, _ => rfl
  | fuel + 1, i, h => by
    have ih := pollLoop_all_fail poll fuel (i + 1) (fun j hj => by
      have e : i + 1 + j = i + (j + 1) := by omega
      rw [e]
      exact h (j + 1) (Nat.succ_lt_succ hj))
    have h0 : ¬ listsTunnels (poll i) := by
      simpa using h 0 (Nat.succ_pos fuel)
    cases hpi : poll i with
    | none => simp [pollLoop, hpi, ih]
    | some ts =>
      have hts : ts = [] := by
        by_contra hne
        exact h0 ⟨ts, hpi, hne⟩
      subst hts
      simp [pollLoop, hpi, ih]

/-- When the first `k` status answers list no tunnel and the next one lists
at least one, the polling loop of `startNgrokTunnel` returns the URL
selected from that first non-empty answer. -/
theorem pollLoop_first_success (poll : Nat → Option (List Tunnel)) :
    ∀ fuel i k, k < fuel →
      (∀ j, j < k → ¬ listsTunnels (poll (i + j))) →
      ∀ ts, poll (i + k) = some ts → ts ≠ [] →
      pollLoop poll i fuel = pickUrl ts
  | 0, _, k, hk, _, _, _, _ => absurd hk (Nat.not_lt_zero k)
  | fuel + 1, i, 0, _, _, ts, hpoll, hne => by
    have hp : poll i = some ts := by simpa using hpoll
    have hlen : ts.length > 0 := List.length_pos.mpr hne
    simp [pollLoop, hp, hlen]
  | fuel + 1, i, k + 1, hk, hf, ts, hpoll, hne => by
    have ih := pollLoop_first_success poll fuel (i + 1) k (Nat.lt_of_succ_lt_succ hk)
      (fun j hj => by
        have e : i + 1 + j = i + (j + 1) := by omega
        rw [e]
        exact hf (j + 1) (Nat.succ_lt_succ hj))
      ts
      (by
        have e : i + 1 + k = i + (k + 1) := by omega
        rw [e]
        exact hpoll)
      hne
    have h0 : ¬ listsTunnels (poll i) := by
      simpa using hf 0 (Nat.succ_pos k)
    cases hpi : poll i with
    | none => simp [pollLoop, hpi, ih]
    | some ts2 =>
      have hts2 : ts2 = [] := by
        by_contra hne2
        exact h0 ⟨ts2, hpi, hne2⟩
      subst hts2
      simp [pollLoop, hpi, ih]

end SetupNgrok

namespace NgrokConfig

/-- Setting key `k` by in-place replacement makes `k` read back the new
value, provided some binding of `k` was present. -/
theorem lookupKey_map_set_self (k v : String) :
    ∀ cfg : Config, (cfg.find? (fun p => p.1 == k)).isSome = true →
      lookupKey (cfg.map (fun p => if p.1 == k then (k, v) else p)) k = some v
  | [], h => by simp [List.find?] at h
  | p :: cfg, h => by
    cases hp : p.1 == k with
    | true => simp [lookupKey, List.find?, hp]
    | false =>
      have h2 : (cfg.find? (fun p => p.1 == k)).isSome = true := by
        simpa [List.find?, hp] using h
      have ih := lookupKey_map_set_self k v cfg h2
      simpa [lookupKey, List.find?, hp] using ih

/-- Appending a binding of key `k` makes `k` read back the new value,
provided no binding of `k` was present. -/
theorem lookupKey_append_self (k v : String) :
    ∀ cfg : Config, cfg.find? (fun p => p.1 == k) = none →
      lookupKey (cfg ++ [(k, v)]) k = some v
  | [], _ => by simp [lookupKey, List.find?]
  | p :: cfg, h => by
    cases hp : p.1 == k with
    | true => simp [List.find?, hp] at h
    | false =>
      have h2 : cfg.find? (fun p => p.1 == k) = none := by
        simpa [List.find?, hp] using h
      have ih := lookupKey_append_self k v cfg h2
      simpa [lookupKey, List.find?, hp] using ih

/-- Setting key `k` by in-place replacement leaves the value of every other
key unchanged. -/
theorem lookupKey_map_set_other (k v k2 : String) (hne : (k == k2) = false) :
    ∀ cfg : Config,
      lookupKey (cfg.map (fun p => if p.1 == k then (k, v) else p)) k2 =
        lookupKey cfg k2
  | [] => by simp [lookupKey]
  | p :: cfg => by
    have ih := lookupKey_map_set_other k v k2 hne cfg
    cases hp : p.1 == k with
    | true =>
      have hpk : p.1 = k := eq_of_beq hp
      have hp2 : (p.1 == k2) = false := by rw [hpk]; exact hne
      simpa [lookupKey, List.find?, hp, hne, hp2] using ih
    | false =>
      cases hq : p.1 == k2 with
      | true => simp [lookupKey, List.find?, hp, hq]
      | false => simpa [lookupKey, List.find?, hp, hq] using ih

/-- Appending a binding of key `k` leaves the value of every other key
unchanged. -/
theorem lookupKey_append_other (k v k2 : String) (hne : (k == k2) = false) :
    ∀ cfg : Config, lookupKey (cfg ++ [(k, v)]) k2 = lookupKey cfg k2
  | [] => by simp [lookupKey, List.find?, hne]
  | p :: cfg => by
    have ih := lookupKey_append_other k v k2 hne cfg
    cases hq : p.1 == k2 with
    | true => simp [lookupKey, List.find?, hq]
    | false => simpa [lookupKey, List.find?, hq] using ih

/-- Reading key `k` after `setKey cfg k v` yields the new value. -/
theorem lookupKey_setKey_self (cfg : Config) (k v : String) :
    lookupKey (setKey cfg k v) k = some v := by
  unfold setKey
  cases hf : (cfg.find? (fun p => p.1 == k)).isSome with
  | true =>
    simp only [hf, if_true]
    exact lookupKey_map_set_self k v cfg hf
  | false =>
    simp only [hf, Bool.false_eq_true, if_false]
    exact lookupKey_append_self k v cfg (Option.not_isSome_iff_eq_none.mp (by simp [hf]))

/-- Reading any other key after `setKey cfg k v` yields its previous
value. -/
theorem lookupKey_setKey_other (cfg : Config) (k v k2 : String)
    (hne : (k == k2) = false) :
    lookupKey (setKey cfg k v) k2 = lookupKey cfg k2 := by
  unfold setKey
  cases hf : (cfg.find? (fun p => p.1 == k)).isSome with
  | true =>
    simp only [hf, if_true]
    exact lookupKey_map_set_other k v k2 hne cfg
  | false =>
    simp only [hf, Bool.false_eq_true, if_false]
    exact lookupKey_append_other k v k2 hne cfg

end NgrokConfig

/-! Claim theorems. -/

/-- C1: the claim states that every mutating operation (credential
creation, job creation, job deletion) fetches its CSRF crumb and issues its
POST within one shared cookie-bearing session context. On the code this
holds only for job deletion: `httpPost` in `clear-jenkins-jobs.mjs` routes
both requests through one PowerShell `WebRequestSession`, while
`addCredential` and `createPipelineJob` in `setup-jenkins.mjs` run the
crumb GET and the mutating POST as two separate `curl` processes with no
cookie option, hence in distinct cookie contexts. -/
theorem claim1_session_divergence :
    ¬ SessionModel.sharesSession SessionModel.addCredentialOp ∧
    ¬ SessionModel.sharesSession SessionModel.createPipelineJobOp ∧
    SessionModel.sharesSession SessionModel.httpPostOp := by
  constructor
  · intro h
    exact absurd h (by decide)
  · constructor
    · intro h
      exact absurd h (by decide)
    · rfl

/-- C2: job creation is idempotent on the job name. When the existence GET
does not answer a truthy body containing `"fullName"` (the job is not
previously present) and the crumb is obtainable, `createPipelineJob`
issues exactly one creation POST; when the existence GET answers a body
containing `"fullName"`, it issues zero creation POSTs and returns
success. -/
theorem claim2_job_creation_idempotent (existsResp : Option String)
    (crumbResp : Option SetupJenkins.Crumb) (postOk : Bool)
    (jobName githubRepoUrl jenkinsfilePath : String) :
    (jsIncludes existsResp "fullName" = false → crumbResp.isSome = true →
      (SetupJenkins.createPipelineJob existsResp crumbResp postOk
        jobName githubRepoUrl jenkinsfilePath).2.length = 1) ∧
    (jsIncludes existsResp "fullName" = true →
      SetupJenkins.createPipelineJob existsResp crumbResp postOk
        jobName githubRepoUrl jenkinsfilePath = (true, [])) := by
  constructor
  · intro h hc
    cases crumbResp with
    | none => simp at hc
    | some c => simp [SetupJenkins.createPipelineJob, h]
  · intro h
    simp [SetupJenkins.createPipelineJob, h]

/-- Witness for C2 at concrete inputs: a 404-style existence answer leads
to exactly one creation POST, and an answer containing `"fullName"` (job
`"app"` already exists) leads to zero POSTs and success. -/
theorem claim2_job_creation_idempotent_witness :
    (SetupJenkins.createPipelineJob (some "<html>404 Not Found</html>")
      (some ⟨"Jenkins-Crumb", "abc"⟩) true
      "app" "https://github.com/acme/app" "Jenkinsfile").2.length = 1 ∧
    SetupJenkins.createPipelineJob (some "x fullName y")
      (some ⟨"Jenkins-Crumb", "abc"⟩) true
      "app" "https://github.com/acme/app" "Jenkinsfile" = (true, []) :=
  ⟨(claim2_job_creation_idempotent (some "<html>404 Not Found</html>")
      (some ⟨"Jenkins-Crumb", "abc"⟩) true
      "app" "https://github.com/acme/app" "Jenkinsfile").1 (by decide) rfl,
   (claim2_job_creation_idempotent (some "x fullName y")
      (some ⟨"Jenkins-Crumb", "abc"⟩) true
      "app" "https://github.com/acme/app" "Jenkinsfile").2 (by decide)⟩

/-- C3, counterexample: the claim states that `setupWebhook` performs a
single webhook-creation call and returns a manual-fallback result whenever
that call fails. On the code, when the primary `gh api` call fails and the
alternative temp-file call succeeds, two creation calls are issued and the
result is a created webhook, not a manual fallback. -/
theorem claim3_counterexample :
    (SetupWebhook.setupWebhook (some "https://x.example")
      { primaryOk := false, altOk := true }).calls = 2 ∧
    (SetupWebhook.setupWebhook (some "https://x.example")
      { primaryOk := false, altOk := true }).manual = false ∧
    (SetupWebhook.setupWebhook (some "https://x.example")
      { primaryOk := false, altOk := true }).created = true := by
  refine ⟨?_, ?_, ?_⟩ <;> rfl

/-- C3 as amended: given a non-empty target URL, `setupWebhook` performs
one creation call when the primary transport succeeds and two (the primary
plus one alternative-transport attempt with the same payload) when it
fails; it reports a created webhook when either attempt succeeds, returns
the manual-fallback result exactly when both fail, and always returns a
result (no error escapes this layer). -/
theorem claim3_webhook_two_attempts (u : String) (env : SetupWebhook.WebhookEnv)
    (hu : (u == "") = false) :
    (SetupWebhook.setupWebhook (some u) env).skipped = false ∧
    (SetupWebhook.setupWebhook (some u) env).calls =
      (if env.primaryOk then 1 else 2) ∧
    (SetupWebhook.setupWebhook (some u) env).created =
      (env.primaryOk || env.altOk) ∧
    (SetupWebhook.setupWebhook (some u) env).manual =
      (!env.primaryOk && !env.altOk) := by
  cases env with
  | mk p a => cases p <;> cases a <;> simp [SetupWebhook.setupWebhook, hu]

/-- Witness for the amended C3 at a concrete input: with a succeeding
primary call, exactly one creation call is issued and the webhook is
reported created. -/
theorem claim3_webhook_two_attempts_witness :
    (SetupWebhook.setupWebhook (some "https://y.example")
      { primaryOk := true, altOk := false }).calls = 1 ∧
    (SetupWebhook.setupWebhook (some "https://y.example")
      { primaryOk := true, altOk := false }).created = true :=
  ⟨(claim3_webhook_two_attempts "https://y.example"
      { primaryOk := true, altOk := false } (by decide)).2.1,
   (claim3_webhook_two_attempts "https://y.example"
      { primaryOk := true, altOk := false } (by decide)).2.2.1⟩

/-- C4: when the initial status query lists at least one tunnel,
`startNgrokTunnel` launches zero provider processes and returns the
`public_url` of the first entry whose `public_url` starts with `https://`
when such an entry exists, otherwise the `public_url` of the first
entry. -/
theorem claim4_tunnel_reuse (env : SetupNgrok.NgrokEnv)
    (ts : List SetupNgrok.Tunnel)
    (h1 : env.initial = some ts) (h2 : ts ≠ []) :
    (SetupNgrok.startNgrokTunnel env).2 = 0 ∧
    (∀ t, ts.find? (fun t => strStartsWith t.public_url "https://") = some t →
      (SetupNgrok.startNgrokTunnel env).1 = some t.public_url) ∧
    (ts.find? (fun t => strStartsWith t.public_url "https://") = none →
      ∀ t0, ts.head? = some t0 →
        (SetupNgrok.startNgrokTunnel env).1 = some t0.public_url) := by
  have hlen : ts.length > 0 := List.length_pos.mpr h2
  refine ⟨?_, ?_, ?_⟩
  · simp [SetupNgrok.startNgrokTunnel, h1, hlen]
  · intro t ht
    simp [SetupNgrok.startNgrokTunnel, h1, hlen, SetupNgrok.pickUrl, ht]
  · intro hnone t0 ht0
    simp [SetupNgrok.startNgrokTunnel, h1, hlen, SetupNgrok.pickUrl, hnone, ht0]

/-- Witness for C4 at a concrete input: a status answer listing an
`http` tunnel before an `https` one makes `startNgrokTunnel` return the
`https` URL with zero launches. -/
theorem claim4_tunnel_reuse_witness :
    (SetupNgrok.startNgrokTunnel
      { initial := some [⟨"http://b.ngrok.io"⟩, ⟨"https://a.ngrok.io"⟩],
        poll := fun _ => none }).2 = 0 ∧
    (SetupNgrok.startNgrokTunnel
      { initial := some [⟨"http://b.ngrok.io"⟩, ⟨"https://a.ngrok.io"⟩],
        poll := fun _ => none }).1 = some "https://a.ngrok.io" :=
  ⟨(claim4_tunnel_reuse _ [⟨"http://b.ngrok.io"⟩, ⟨"https://a.ngrok.io"⟩]
      rfl (by decide)).1,
   (claim4_tunnel_reuse _ [⟨"http://b.ngrok.io"⟩, ⟨"https://a.ngrok.io"⟩]
      rfl (by decide)).2.1 ⟨"https://a.ngrok.io"⟩ (by decide)⟩

/-- C5: when the initial status query lists zero tunnels,
`startNgrokTunnel` launches exactly one detached provider process and then
polls the status endpoint up to 30 times; it returns the URL selected from
the first answer listing at least one tunnel, and returns the failure
value `none` (not an exception) when all 30 attempts are exhausted. -/
theorem claim5_tunnel_launch_poll (env : SetupNgrok.NgrokEnv)
    (h0 : env.initial = some []) :
    (SetupNgrok.startNgrokTunnel env).2 = 1 ∧
    ((∀ j, j < 30 → ¬ SetupNgrok.listsTunnels (env.poll j)) →
      (SetupNgrok.startNgrokTunnel env).1 = none) ∧
    (∀ k, k < 30 → (∀ j, j < k → ¬ SetupNgrok.listsTunnels (env.poll j)) →
      ∀ ts, env.poll k = some ts → ts ≠ [] →
        (SetupNgrok.startNgrokTunnel env).1 = SetupNgrok.pickUrl ts) := by
  refine ⟨?_, ?_, ?_⟩
  · simp [SetupNgrok.startNgrokTunnel, h0]
  · intro h
    have hp := SetupNgrok.pollLoop_all_fail env.poll 30 0
      (fun j hj => by simpa using h j hj)
    simp [SetupNgrok.startNgrokTunnel, h0, hp]
  · intro k hk hf ts hp hne
    have hp2 := SetupNgrok.pollLoop_first_success env.poll 30 0 k hk
      (fun j hj => by simpa using hf j hj) ts (by simpa using hp) hne
    simp [SetupNgrok.startNgrokTunnel, h0, hp2]

/-- Witness for C5 at a concrete input: with an initially empty tunnel
list and a first poll answering one `https` tunnel, `startNgrokTunnel`
launches one process and returns that URL. -/
theorem claim5_tunnel_launch_poll_witness :
    (SetupNgrok.startNgrokTunnel
      { initial := some [],
        poll := fun j => if j = 0 then some [⟨"https://a.ngrok.io"⟩] else none }).2 = 1 ∧
    (SetupNgrok.startNgrokTunnel
      { initial := some [],
        poll := fun j => if j = 0 then some [⟨"https://a.ngrok.io"⟩] else none }).1 =
      SetupNgrok.pickUrl [⟨"https://a.ngrok.io"⟩] :=
  ⟨(claim5_tunnel_launch_poll
      { initial := some [],
        poll := fun j => if j = 0 then some [⟨"https://a.ngrok.io"⟩] else none } rfl).1,
   (claim5_tunnel_launch_poll
      { initial := some [],
        poll := fun j => if j = 0 then some [⟨"https://a.ngrok.io"⟩] else none } rfl).2.2
      0 (by decide) (fun j hj => absurd hj (Nat.not_lt_zero j))
      [⟨"https://a.ngrok.io"⟩] rfl (by decide)⟩

/-- C6: when the liveness check fails for the first `k < 30` calls and
succeeds on call `k + 1`, the readiness-polling loop of `setupJenkins`
reports ready and has issued exactly `k + 1` liveness GET calls (hence no
more than `k + 1`). -/
theorem claim6_readiness_success (resp : Nat → Option String) (k : Nat)
    (hk : k < 30)
    (hf : ∀ j, j < k → SetupJenkins.checkJenkinsApi (resp j) = false)
    (hs : SetupJenkins.checkJenkinsApi (resp k) = true) :
    SetupJenkins.waitUntilReady resp = (true, k + 1) := by
  unfold SetupJenkins.waitUntilReady
  exact SetupJenkins.waitFrom_first_success resp 30 0 k hk
    (fun j hj => by simpa using hf j hj) (by simpa using hs)

/-- Witness for C6 at a concrete input: two failing liveness answers
followed by one containing `"mode"` yield ready after exactly three
calls. -/
theorem claim6_readiness_success_witness :
    SetupJenkins.waitUntilReady
      (fun j => if j < 2 then none else some "node mode normal") = (true, 3) :=
  claim6_readiness_success
    (fun j => if j < 2 then none else some "node mode normal") 2 (by decide)
    (fun j hj => by
      have hj2 : j = 0 ∨ j = 1 := by omega
      rcases hj2 with h | h <;> subst h <;> rfl)
    (by decide)

/-- C7: with an always-failing liveness response stream, the
readiness-polling loop of `setupJenkins` returns not-ready after issuing
exactly 30 liveness GET calls, rather than raising an exception. -/
theorem claim7_readiness_timeout (resp : Nat → Option String)
    (hf : ∀ j, j < 30 → SetupJenkins.checkJenkinsApi (resp j) = false) :
    SetupJenkins.waitUntilReady resp = (false, 30) := by
  unfold SetupJenkins.waitUntilReady
  exact SetupJenkins.waitFrom_all_fail resp 30 0 (fun j hj => by simpa using hf j hj)

/-- Witness for C7 at a concrete input: a stream of failed GETs yields
not-ready after exactly 30 calls. -/
theorem claim7_readiness_timeout_witness :
    SetupJenkins.waitUntilReady (fun _ => none) = (false, 30) :=
  claim7_readiness_timeout (fun _ => none) (fun _ _ => rfl)

set_option maxRecDepth 8192 in
/-- C8: for credential id `"docker-hub-credentials"`, username `"u"` and
secret `"p"` (with the description the orchestrator passes), whenever the
crumb is obtainable `addCredential` POSTs exactly one XML body, and that
body contains exactly one `<id>docker-hub-credentials</id>`, exactly one
`<username>u</username>` and exactly one `<password>p</password>`
element. -/
theorem claim8_credential_xml_counts (c : SetupJenkins.Crumb) (postOk : Bool) :
    ∃ body,
      (SetupJenkins.addCredential (some c) postOk "docker-hub-credentials"
        "u" "p" "Docker Hub credentials for pushing images").posted = [body] ∧
      countOccur body "<id>docker-hub-credentials</id>" = 1 ∧
      countOccur body "<username>u</username>" = 1 ∧
      countOccur body "<password>p</password>" = 1 :=
  ⟨SetupJenkins.credentialXml "docker-hub-credentials"
      "Docker Hub credentials for pushing images" "u" "p",
    rfl, by decide, by decide, by decide⟩

/-- C9: when the crumb fetch fails, `addCredential` returns failure and
issues zero credential-creation POSTs, for every credential id, username,
secret and description. -/
theorem claim9_no_post_without_crumb (postOk : Bool)
    (credId user pass desc : String) :
    SetupJenkins.addCredential none postOk credId user pass desc =
      { ok := false, posted := [] } :=
  rfl

/-- C10: the token store round-trips and is frame-preserving: after
`saveNgrokToken t`, `getSavedNgrokToken` returns `t`, and every other key
of the persisted configuration document keeps its previous value. -/
theorem claim10_token_roundtrip (cfg : NgrokConfig.Config) (t : String) :
    NgrokConfig.getSavedNgrokToken (NgrokConfig.saveNgrokToken cfg t) = t ∧
    ∀ k2, k2 ≠ "ngrokAuthToken" →
      NgrokConfig.lookupKey (NgrokConfig.saveNgrokToken cfg t) k2 =
        NgrokConfig.lookupKey cfg k2 := by
  constructor
  · unfold NgrokConfig.getSavedNgrokToken NgrokConfig.saveNgrokToken
    rw [NgrokConfig.lookupKey_setKey_self]
  · intro k2 hk2
    unfold NgrokConfig.saveNgrokToken
    exact NgrokConfig.lookupKey_setKey_other cfg "ngrokAuthToken" t k2
      (beq_eq_false_iff_ne.mpr (Ne.symm hk2))

/-- Witness for C10 at a concrete input: saving a token over a document
holding a `githubToken` key reads the token back and leaves `githubToken`
unchanged. -/
theorem claim10_token_roundtrip_witness :
    NgrokConfig.getSavedNgrokToken
      (NgrokConfig.saveNgrokToken [("githubToken", "g")] "tok") = "tok" ∧
    NgrokConfig.lookupKey
      (NgrokConfig.saveNgrokToken [("githubToken", "g")] "tok") "githubToken" =
      NgrokConfig.lookupKey [("githubToken", "g")] "githubToken" :=
  ⟨(claim10_token_roundtrip [("githubToken", "g")] "tok").1,
   (claim10_token_roundtrip [("githubToken", "g")] "tok").2 "githubToken" (by decide)⟩

end Platfrix
